import Mathlib

/-!
Verification development for the VRPOptimizer repository.

The Python modules embedded here:
  * `src/core/models.py`      — `Location`, `Shipment`, `Route`, `Solution`
    and their `to_dict` / `from_dict` serializers;
  * `src/core/settings.py`    — the optimization-related settings defaults;
  * `src/core/exceptions.py`  — the exception kinds that the optimization
    entry point can surface;
  * `src/services/optimization_service.py` — `OptimizationService.optimize`
    and its helpers (several of which are literal `pass` stubs);
  * `src/services/custom_constraint_manager.py` — the LIFO / capacity
    dimension encodings and `validate_solution`;
  * `src/services/data_service.py` — the pallet-count validators.

Modelling conventions: Python ints are `Int` (or `Nat` where the source can
only produce non-negative values); Python floats appearing in the data model
pass through serialization unchanged and are never computed with, so they
are modelled by `Int` (any type with decidable equality would do); a Python
function that can raise is an `Except`/`Option`; `datetime` values are
modelled by their component tuple, and the ISO string produced by
`datetime.isoformat()` is modelled at field granularity as the list of those
components (`datetime.fromisoformat` is the corresponding parser; Python's
additional range validation is omitted because every serialized value comes
from a valid `datetime` object and passes it).
-/

namespace VRPOptimizer

/-- Python `datetime` restricted to the fields that serialization renders. -/
structure PyDateTime where
  year : Nat
  month : Nat
  day : Nat
  hour : Nat
  minute : Nat
  second : Nat
deriving DecidableEq, Repr

/-- Python `datetime.isoformat()`: the textual ISO form, modelled as the token list
of its components.  It is never the empty (falsy) string. -/
def PyDateTime.isoformat (d : PyDateTime) : List Nat :=
  [d.year, d.month, d.day, d.hour, d.minute, d.second]

/-- Python `datetime.fromisoformat`: parses an ISO token list back into a
`datetime`; anything of the wrong shape raises, modelled by `none`. -/
def PyDateTime.fromisoformat : List Nat → Option PyDateTime
  | [y, m, d, h, mi, s] => some ⟨y, m, d, h, mi, s⟩
  | _ => none

/-- Dataclass `Location` from `src/core/models.py`. -/
structure Location where
  city : String
  state : String
  lat : Option Int := none
  lng : Option Int := none
deriving DecidableEq, Repr

/-- The dictionary produced by `Location.to_dict` (fixed key set). -/
structure LocationDict where
  city : String
  state : String
  lat : Option Int
  lng : Option Int
deriving DecidableEq, Repr

/-- Method `Location.to_dict`. -/
def Location.to_dict (l : Location) : LocationDict :=
  { city := l.city, state := l.state, lat := l.lat, lng := l.lng }

/-- Method `Location.from_dict` (total: every key access succeeds on the fixed
dictionary shape; `lat`/`lng` use `dict.get`, i.e. `Option`). -/
def Location.from_dict (d : LocationDict) : Location :=
  { city := d.city, state := d.state, lat := d.lat, lng := d.lng }

/-- Dataclass `Shipment` from `src/core/models.py`. -/
structure Shipment where
  id : String
  origin : Location
  destination : Location
  pallet_count : Int
  volume : Option Int := none
  weight : Option Int := none
  pickup_time : Option PyDateTime := none
  delivery_time : Option PyDateTime := none
deriving DecidableEq, Repr

/-- The dictionary produced by `Shipment.to_dict`; the time fields hold the
ISO rendering (or `None`). -/
structure ShipmentDict where
  id : String
  origin : LocationDict
  destination : LocationDict
  pallet_count : Int
  volume : Option Int
  weight : Option Int
  pickup_time : Option (List Nat)
  delivery_time : Option (List Nat)
deriving DecidableEq, Repr

/-- Method `Shipment.to_dict`.  `self.pickup_time.isoformat() if self.pickup_time
else None`: a `datetime` object is always truthy, so this is `Option.map`. -/
def Shipment.to_dict (s : Shipment) : ShipmentDict :=
  { id := s.id
    origin := s.origin.to_dict
    destination := s.destination.to_dict
    pallet_count := s.pallet_count
    volume := s.volume
    weight := s.weight
    pickup_time := s.pickup_time.map PyDateTime.isoformat
    delivery_time := s.delivery_time.map PyDateTime.isoformat }

/-- The time-field decoding inside `Shipment.from_dict`:
`datetime.fromisoformat(data["pickup_time"]) if data.get("pickup_time") else
None` — an absent or falsy (empty) value yields `None`; otherwise the parse
runs and its failure propagates out of `from_dict`. -/
def decodeTimeField : Option (List Nat) → Option (Option PyDateTime)
  | none => some none
  | some l =>
      if l.isEmpty then some none
      else (PyDateTime.fromisoformat l).map some

/-- Method `Shipment.from_dict`; `none` models the exception a malformed time
string raises. -/
def Shipment.from_dict (d : ShipmentDict) : Option Shipment := do
  let pt ← decodeTimeField d.pickup_time
  let dt ← decodeTimeField d.delivery_time
  return { id := d.id
           origin := Location.from_dict d.origin
           destination := Location.from_dict d.destination
           pallet_count := d.pallet_count
           volume := d.volume
           weight := d.weight
           pickup_time := pt
           delivery_time := dt }

/-- Dataclass `Route` from `src/core/models.py`: `stops` is a list of
`(type: 'pickup'|'delivery', shipment)` pairs. -/
structure Route where
  id : String
  stops : List (String × Shipment)
  total_distance : Int
  total_pallets : Int
  vehicle_id : String
deriving DecidableEq, Repr

/-- The dictionary produced by `Route.to_dict`. -/
structure RouteDict where
  id : String
  stops : List (String × ShipmentDict)
  total_distance : Int
  total_pallets : Int
  vehicle_id : String
deriving DecidableEq, Repr

/-- Method `Route.to_dict`. -/
def Route.to_dict (r : Route) : RouteDict :=
  { id := r.id
    stops := r.stops.map (fun p => (p.1, p.2.to_dict))
    total_distance := r.total_distance
    total_pallets := r.total_pallets
    vehicle_id := r.vehicle_id }

/-- Dataclass `Solution` from `src/core/models.py`. -/
structure Solution where
  routes : List Route
  total_distance : Int
  total_cost : Int
  unassigned_shipments : List Shipment
deriving DecidableEq, Repr

/-- The dictionary produced by `Solution.to_dict`. -/
structure SolutionDict where
  routes : List RouteDict
  total_distance : Int
  total_cost : Int
  unassigned_shipments : List ShipmentDict
deriving DecidableEq, Repr

/-- Method `Solution.to_dict`. -/
def Solution.to_dict (s : Solution) : SolutionDict :=
  { routes := s.routes.map Route.to_dict
    total_distance := s.total_distance
    total_cost := s.total_cost
    unassigned_shipments := s.unassigned_shipments.map Shipment.to_dict }

/-- Modelled from the spec: `src/core/models.py` defines no `Route.from_dict`
(only `Shipment.from_dict` and `Location.from_dict` exist); §6 of the spec
describes the persistence collaborator consuming "a plain nested record
structure (ids, stop tuples of `(type, shipment_id)`, numeric totals)", so
the deserializer mirrors `Route.to_dict` field by field, reusing the real
`Shipment.from_dict` for the stops.  This is the stop-list decoder. -/
def decodeStops : List (String × ShipmentDict) → Option (List (String × Shipment))
  | [] => some []
  | p :: rest => do
      let s ← Shipment.from_dict p.2
      let tail ← decodeStops rest
      return (p.1, s) :: tail

/-- Modelled from the spec: the `Route` deserializer continued — the other
fields are plain copies, as in `Route.to_dict`. -/
def Route.from_dict_model (d : RouteDict) : Option Route := do
  let stops ← decodeStops d.stops
  return { id := d.id
           stops := stops
           total_distance := d.total_distance
           total_pallets := d.total_pallets
           vehicle_id := d.vehicle_id }

/-- Modelled from the spec: the route-list decoder of the `Solution`
deserializer. -/
def decodeRoutes : List RouteDict → Option (List Route)
  | [] => some []
  | d :: rest => do
      let r ← Route.from_dict_model d
      let tail ← decodeRoutes rest
      return r :: tail

/-- Decoding of the unassigned-shipment list with the real
`Shipment.from_dict`. -/
def decodeShipments : List ShipmentDict → Option (List Shipment)
  | [] => some []
  | d :: rest => do
      let s ← Shipment.from_dict d
      let tail ← decodeShipments rest
      return s :: tail

/-- Modelled from the spec: `src/core/models.py` defines no
`Solution.from_dict`; mirrors `Solution.to_dict`, reusing the real
`Shipment.from_dict` and the modelled `Route.from_dict_model`. -/
def Solution.from_dict_model (d : SolutionDict) : Option Solution := do
  let routes ← decodeRoutes d.routes
  let unassigned ← decodeShipments d.unassigned_shipments
  return { routes := routes
           total_distance := d.total_distance
           total_cost := d.total_cost
           unassigned_shipments := unassigned }

/-! ## Settings (`src/core/settings.py`, optimization-related fields) -/

/-- The optimization-related settings of `Settings`, with the source's
default values. -/
structure Settings where
  MAX_VEHICLES : Nat := 10
  MAX_DISTANCE : Nat := 5000
  MAX_PALLETS : Int := 20
  MAX_SHIPMENTS : Nat := 1000
  MAX_COMPUTATION_TIME : Nat := 300
  FEATURE_CUSTOM_CONSTRAINTS : Bool := false
deriving DecidableEq, Repr

/-- The `Settings` instance with all defaults. -/
def defaultSettings : Settings := {}

/-! ## `OptimizationService.optimize` (`src/services/optimization_service.py`)

The method body is one `try/except Exception/finally` block.  Its first
statement is `self.memory_monitor.start()`; `memory_monitor` is the
`MonitoringSystem` of `src/monitoring/monitoring.py`, which defines no
`start`, `stop` or `get_stats_summary` method (the similarly named
`start_monitoring`/`stop_monitoring` live on an unrelated class in
`src/monitoring/system.py` that this service never imports).  So every call
raises `AttributeError` immediately; the blanket handler re-raises it as
`OptimizationError(str(e))`; and the `finally` block then calls
`memory_monitor.stop()`, whose own `AttributeError` replaces the in-flight
exception — Python semantics for an exception raised in `finally` — so the
caller always observes that `AttributeError`.  The statements after the
monitor call are embedded in source order even though they are unreachable:
the `MAX_SHIPMENTS` guard raising `ResourceExhaustedError`, the stubbed
`_create_data_model` returning `None` and the `TypeError` from subscripting
it, and the OR-Tools solve (modelled as a function parameter). -/

/-- The exceptions appearing in `optimize`: the raw Python exceptions its
`try` and `finally` blocks can raise, and the `OptimizationError` of
`src/core/exceptions.py` that the `except` handler wraps them in. -/
inductive PyExc where
  | resourceExhausted (msg : String)
  | typeError (msg : String)
  | attributeError (msg : String)
  | optimizationError (msg : String)
deriving DecidableEq, Repr

/-- Python `str(e)` for the exceptions above. -/
def PyExc.msg : PyExc → String
  | .resourceExhausted m => m
  | .typeError m => m
  | .attributeError m => m
  | .optimizationError m => m

/-- The routing data dictionary that `_create_data_model` is documented to
produce, with the keys the rest of the service reads. -/
structure DataModel where
  distance_matrix : List (List Int)
  time_matrix : List (List Int)
  demands : List Int
  num_vehicles : Nat
  num_locations : Nat
  depot : Nat
  time_windows : List (Nat × Nat)
  max_route_time : Nat
deriving DecidableEq, Repr

/-- A raw OR-Tools assignment: per-vehicle ordered node lists. -/
def Assignment := List (List Nat)

/-- Method `OptimizationService._create_data_model`: its body in the source is the
stub `# Implementation here... pass`, so it returns `None`. -/
def create_data_model (_ : List Shipment) : Option DataModel := none

/-- Method `OptimizationService._create_solution`: its body in the source is the
stub `# Implementation here... pass`, so it returns `None`. -/
def create_solution (_ : DataModel) (_ : Assignment) : Option Solution := none

/-- The solver branch of `optimize` (lines 73–79): `SolveWithParameters`
either yields an assignment — then `_create_solution` is returned — or not,
and then `optimize` logs a warning and returns `None`. -/
def solveBranch (solve : DataModel → Option Assignment) (data : DataModel) :
    Except PyExc (Option Solution) :=
  match solve data with
  | some assignment => .ok (create_solution data assignment)
  | none => .ok none

/-- The call `self.memory_monitor.start()` opening the `try` block:
`MonitoringSystem` has no `start` attribute, so the lookup raises. -/
def monitorStart : Except PyExc Unit :=
  .error (.attributeError ("'MonitoringSystem' object has no attribute 'start'"))

/-- The call `self.memory_monitor.stop()` opening the `finally` block: no
`stop` attribute either. -/
def monitorStop : Except PyExc Unit :=
  .error (.attributeError ("'MonitoringSystem' object has no attribute 'stop'"))

/-- The call `self.memory_monitor.get_stats_summary()` in the `finally`
block's log line: no such attribute either (in execution it is never
reached, because `stop()` raises first). -/
def monitorGetStats : Except PyExc Unit :=
  .error (.attributeError
    ("'MonitoringSystem' object has no attribute 'get_stats_summary'"))

/-- The `try` block of `optimize` in source order: the monitor start call,
the shipment-count guard, the data model (a stub returning `None`, so
`len(data["distance_matrix"])` raises `TypeError`), then model construction
and the solver branch. -/
def optimizeTryBody (settings : Settings) (solve : DataModel → Option Assignment)
    (shipments : List Shipment) : Except PyExc (Option Solution) :=
  match monitorStart with
  | .error e => .error e
  | .ok _ =>
      if shipments.length > settings.MAX_SHIPMENTS then
        .error (.resourceExhausted
          ("Too many shipments: " ++ toString shipments.length ++ " > "
            ++ toString settings.MAX_SHIPMENTS))
      else
        match create_data_model shipments with
        | none => .error (.typeError ("'NoneType' object is not subscriptable"))
        | some data => solveBranch solve data

/-- The `try` body with the handler `except Exception as e:
raise OptimizationError(str(e))` applied. -/
def optimizeHandled (settings : Settings) (solve : DataModel → Option Assignment)
    (shipments : List Shipment) : Except PyExc (Option Solution) :=
  match optimizeTryBody settings solve shipments with
  | .ok v => .ok v
  | .error e => .error (.optimizationError e.msg)

/-- The `finally` block (lines 85–92): `memory_monitor.stop()`, then the log
line calling `memory_monitor.get_stats_summary()`. -/
def finallyBlock : Except PyExc Unit :=
  match monitorStop with
  | .error e => .error e
  | .ok _ => monitorGetStats

/-- Method `OptimizationService.optimize`: the handled `try/except` outcome,
superseded by any exception the `finally` block raises (an exception raised
in `finally` replaces the in-flight exception or return value). -/
def optimize (settings : Settings) (solve : DataModel → Option Assignment)
    (shipments : List Shipment) : Except PyExc (Option Solution) :=
  let handled := optimizeHandled settings solve shipments
  match finallyBlock with
  | .error f => .error f
  | .ok _ => handled

/-! ## `CustomConstraintManager` (`src/services/custom_constraint_manager.py`) -/

/-- Dataclass `ConstraintConfig` with the dataclass defaults. -/
structure ConstraintConfig where
  enabled : Bool := true
  weight : Int := 1
  penalty : Int := 1000
deriving DecidableEq, Repr

/-- The manager's `configs["lifo"]` entry as built in `__init__`. -/
def lifoConfig : ConstraintConfig := { enabled := true, weight := 2, penalty := 1000 }

/-- The (vehicle, position) at which a node is visited in a raw assignment,
`none` when the node is dropped. -/
def findNode : List (List Nat) → Nat → Option (Nat × Nat)
  | [], _ => none
  | r :: rest, n =>
      match r.findIdx? (fun m => m == n) with
      | some p => some (0, p)
      | none => (findNode rest n).map (fun q => (q.1 + 1, q.2))

/-- What `add_lifo_constraints` makes the solver enforce, expressed on a raw
assignment over `2 * half` locations (`half = data["num_locations"] // 2`,
request `r` pairs pickup node `r` with delivery node `r + half`):

* the `LIFO` dimension has unit transit, zero slack, starts at zero and is
  capped at `data["num_vehicles"]`, so the cumul of the `j`-th visit is `j`
  and a route of `m` stops ends with cumul `m`, bounded by `num_vehicles`;
* `AddPickupAndDelivery` puts both nodes of a performed request on one
  vehicle (a request may instead be dropped entirely);
* `solver().Add(cumul(pickup) < cumul(delivery))` orders the visits.

(`OptimizationService._add_lifo_constraints` is additionally a `pass` stub
that contributes nothing.) -/
def lifoConstraintsOk (numVehicles half : Nat) (assignment : List (List Nat)) : Bool :=
  assignment.all (fun r => r.length ≤ numVehicles) &&
  (List.range half).all (fun req =>
    match findNode assignment req, findNode assignment (req + half) with
    | none, none => true
    | some pq, some pq' => pq.1 == pq'.1 && pq.2 < pq'.2
    | _, _ => false)

/-- The spec's strict LIFO stack discipline over the same node routes
(claim side, §4.3): push the request on its pickup node, and every delivery
node must pop exactly the request on top; returns the final stack, `none`
on a mismatch. -/
def lifoStackSim (half : Nat) : List Nat → List Nat → Option (List Nat)
  | stack, [] => some stack
  | stack, n :: rest =>
      if n < half then lifoStackSim half (n :: stack) rest
      else
        match stack with
        | [] => none
        | top :: s => if n == top + half then lifoStackSim half s rest else none

/-- Claim side: a node route obeys strict LIFO stack discipline. -/
def lifoStackDiscipline (half : Nat) (route : List Nat) : Bool :=
  (lifoStackSim half [] route).isSome

/-- What `validate_solution` reads from each element of a route: the code
accesses only `shipment.is_pickup` and `shipment.id` (duck-typed; the static
`Shipment` annotation has no `is_pickup` field), while the claims about the
capacity invariant also concern `pallet_count`. -/
structure VStop where
  is_pickup : Bool
  id : String
  pallet_count : Int
deriving DecidableEq, Repr

/-- The per-route loop of `validate_solution`: `active_shipments` grows on a
pickup and must end with the delivered id on top on a delivery (Python
appends and pops at the right end; embedded as cons/match at the head).
Returns the final stack, `none` on the early `return False`. -/
def lifoSim : List String → List VStop → Option (List String)
  | active, [] => some active
  | active, s :: rest =>
      if s.is_pickup then lifoSim (s.id :: active) rest
      else
        match active with
        | [] => none
        | top :: tl => if top == s.id then lifoSim tl rest else none

/-- A route passes `validate_solution`'s LIFO loop (the final stack is
discarded). -/
def lifoRouteCheck (r : List VStop) : Bool := (lifoSim [] r).isSome

/-- The route iteration of `validate_solution`: first violation returns
`(False, "LIFO constraint violation")`, otherwise `(True, None)`. -/
def validateRoutes : List (List VStop) → Bool × Option String
  | [] => (true, none)
  | r :: rest =>
      if lifoRouteCheck r then validateRoutes rest
      else (false, some ("LIFO constraint violation"))

/-- Method `CustomConstraintManager.validate_solution`: only the LIFO check exists
(`# Add other validation logic as needed`); with the LIFO config disabled it
checks nothing. -/
def validate_solution (lifoEnabled : Bool) (sol : List (List VStop)) :
    Bool × Option String :=
  if lifoEnabled then validateRoutes sol else (true, none)

/-- Claim side: the running pallet loads of a route of stops (a pickup adds
`pallet_count`, a delivery subtracts it), including the initial `0` and the
final load. -/
def vstopRunning : Int → List VStop → List Int
  | c, [] => [c]
  | c, s :: rest =>
      c :: vstopRunning (c + (if s.is_pickup then s.pallet_count else -s.pallet_count)) rest

/-- Claim side: the capacity invariant of the spec over a materialized
solution — every running pallet load of every route lies in `[0, cap]`. -/
def capacityInvariantHolds (cap : Int) (sol : List (List VStop)) : Bool :=
  sol.all (fun r => (vstopRunning 0 r).all (fun c => decide (0 ≤ c) && decide (c ≤ cap)))

/-! ## Pallet-count validation (`src/services/data_service.py`) -/

/-- Validator `ShipmentData.validate_pallet_count`: the pydantic validator raises
unless `0 < v <= 26`; `true` means the value is accepted. -/
def validate_pallet_count (v : Int) : Bool := decide (0 < v ∧ v ≤ 26)

/-- The pallet check inside `DataService.validate_data`: an error is
reported unless `0 < shipment.pallet_count <= settings.MAX_PALLETS`;
`true` means no error for this shipment. -/
def validateDataPalletOk (settings : Settings) (v : Int) : Bool :=
  decide (0 < v ∧ v ≤ settings.MAX_PALLETS)

/-! ## The capacity dimension (`add_capacity_constraints` /
`_add_capacity_constraint`)

Both register a unary callback returning `data["demands"][from_node]` and
call `AddDimensionWithVehicleCapacity(cb, 0, [capacity] * num_vehicles,
True, "Capacity")`: per vehicle the cumul starts at `0`, each visited node
adds its demand (zero slack), and every cumul — the end node's included —
must lie in `[0, capacity]`. -/

/-- The cumul values of the capacity dimension along one route: the start
value, then one value after each visited node. -/
def routeCumuls (demands : List Int) : Int → List Nat → List Int
  | c, [] => [c]
  | c, n :: rest => c :: routeCumuls demands (c + demands.getD n 0) rest

/-- A route is feasible for the capacity dimension as encoded: every cumul
lies in `[0, cap]`. -/
def capacityDimensionOk (demands : List Int) (cap : Int) (route : List Nat) : Bool :=
  (routeCumuls demands 0 route).all (fun c => decide (0 ≤ c) && decide (c ≤ cap))

/-- Modelled from the spec: `_create_data_model`, which builds
`data["demands"]`, is a `pass` stub in the source; §4.2 prescribes
`demands[2k] = +pallet_count` and `demands[2k+1] = -pallet_count` for the
`k`-th shipment. -/
def build_demands (shipments : List Shipment) : List Int :=
  (shipments.map (fun s => [s.pallet_count, -s.pallet_count])).flatten

/-- Claim side: the signed pallet demand of node `n` (node `2k` is the
pickup of the `k`-th shipment and adds its `pallet_count`, node `2k+1` its
delivery and subtracts it). -/
def signedDemand (shipments : List Shipment) (n : Nat) : Int :=
  match shipments[(n / 2)]? with
  | some s => if n % 2 = 0 then s.pallet_count else -s.pallet_count
  | none => 0

/-- Claim side: the running sum of signed pallet demands over the first `k`
stops of a route. -/
def prefixPalletSum (shipments : List Shipment) (route : List Nat) (k : Nat) : Int :=
  ((route.take k).map (signedDemand shipments)).sum

/-! ## The solution extractor (for the completeness claim)

`OptimizationService._create_solution` is a `pass` stub, so the extractor
is modelled from the spec (§4.5): from the raw per-vehicle ordered node
lists build `Route` objects with the stop list and the aggregated metrics,
and collect the shipments whose both nodes are absent from any route into
`unassigned_shipments`. -/

/-- The `(stop_type, shipment)` stop of node `n` under the §4.2 numbering
(`2k` pickup / `2k+1` delivery of the `k`-th shipment); `none` for an
out-of-range node. -/
def node_stop (shipments : List Shipment) (n : Nat) : Option (String × Shipment) :=
  match shipments[(n / 2)]? with
  | some s => some ((if n % 2 = 0 then ("pickup") else ("delivery")), s)
  | none => none

/-- Modelled from the spec: one `Route` of §4.5, from vehicle `i`'s raw node
list — the stop list plus the route's distance and total picked-up
pallets. -/
def buildRoute (shipments : List Shipment) (routeDistance : List Nat → Int)
    (i : Nat) (r : List Nat) : Route :=
  let stops := r.filterMap (node_stop shipments)
  { id := toString i
    stops := stops
    total_distance := routeDistance r
    total_pallets := (stops.filter (fun st => st.1 == ("pickup"))).foldl
      (fun acc st => acc + st.2.pallet_count) 0
    vehicle_id := toString i }

/-- Modelled from the spec: the per-vehicle `Route` list (vehicle indices in
order). -/
def buildRoutes (shipments : List Shipment) (routeDistance : List Nat → Int) :
    Nat → List (List Nat) → List Route
  | _, [] => []
  | i, r :: rest =>
      buildRoute shipments routeDistance i r ::
        buildRoutes shipments routeDistance (i + 1) rest

/-- A node is visited somewhere in the raw assignment. -/
def appearsIn (assignment : List (List Nat)) (n : Nat) : Bool :=
  assignment.any (fun r => r.contains n)

/-- Modelled from the spec: the extractor of §4.5 — `Route` objects,
`total_distance` the sum of route distances, `total_cost` the distance times
a per-mile rate, and the shipments whose both nodes are absent from any
route as `unassigned_shipments`. -/
def create_solution_model (shipments : List Shipment)
    (routeDistance : List Nat → Int) (costPerMile : Int)
    (assignment : List (List Nat)) : Solution :=
  { routes := buildRoutes shipments routeDistance 0 assignment
    total_distance := (assignment.map routeDistance).sum
    total_cost := (assignment.map routeDistance).sum * costPerMile
    unassigned_shipments :=
      ((List.range shipments.length).filter
        (fun k => !appearsIn assignment (2 * k) && !appearsIn assignment (2 * k + 1))).filterMap
        (fun k => shipments[k]?) }

/-- A `Route` contains a stop of the given type for the given shipment id. -/
def Route.hasStopId (r : Route) (t : String) (sid : String) : Bool :=
  r.stops.any (fun st => st.1 == t && st.2.id == sid)

/-- Claim side: both stops of the shipment appear in exactly one route of
the solution — exactly one route mentions the shipment at all, and that
route carries both its pickup and its delivery stop. -/
def placedInExactlyOneRoute (sol : Solution) (sid : String) : Prop :=
  sol.routes.countP (fun r => r.hasStopId ("pickup") sid && r.hasStopId ("delivery") sid) = 1 ∧
  sol.routes.countP (fun r => r.hasStopId ("pickup") sid || r.hasStopId ("delivery") sid) = 1

/-- Claim side: the shipment is reported unassigned and none of its stops
occurs in any route. -/
def unassignedWithNoStops (sol : Solution) (sid : String) : Prop :=
  sol.unassigned_shipments.any (fun u => u.id == sid) = true ∧
  sol.routes.countP (fun r => r.hasStopId ("pickup") sid || r.hasStopId ("delivery") sid) = 0

/-- Claim side: the route's simulated stack ends non-empty — some picked-up
shipment is never delivered (the code's final `active_shipments` would be
non-empty, but `validate_solution` never looks at it). -/
def hasLeftoverPickups (r : List VStop) : Bool :=
  match lifoSim [] r with
  | some st => !st.isEmpty
  | none => false

/-! ## Concrete inputs used by witnesses and counterexamples -/

/-- A well-formed shipment (5 pallets, Chicago to Detroit). -/
def exShipment : Shipment :=
  { id := "S1"
    origin := { city := "Chicago", state := "IL" }
    destination := { city := "Detroit", state := "MI" }
    pallet_count := 5 }

/-- A batch of 1001 shipments: one more than the default `MAX_SHIPMENTS`. -/
def overLimitShipments : List Shipment := List.replicate 1001 exShipment

/-- A one-route solution that is LIFO-clean but loads 26 pallets on a
vehicle of capacity 20. -/
def exOverloadSolution : List (List VStop) :=
  [[⟨true, "A", 26⟩, ⟨false, "A", 26⟩]]

/-- A one-route solution whose only stop is a pickup that is never
delivered. -/
def exLeftoverSolution : List (List VStop) := [[⟨true, "A", 1⟩]]

/-! ## Helper lemmas -/

theorem validateRoutes_eq_ok (sol : List (List VStop)) :
    validateRoutes sol = (true, none) ↔ ∀ r ∈ sol, lifoRouteCheck r = true := by
  induction sol with
  | nil => simp [validateRoutes]
  | cons r rest ih =>
      by_cases h : lifoRouteCheck r
      · simp [validateRoutes, h, ih]
      · simp [validateRoutes, h]

/-! ## Claim C1 -/

/-- C1: the claim states that every route of a returned Solution satisfies
strict LIFO stack discipline.  The code is wrong: the encoded LIFO
constraint (`cumul(pickup) < cumul(delivery)` on a unit-step dimension, plus
`AddPickupAndDelivery`) accepts the route pickup S1, pickup S2, deliver S1,
deliver S2 — nodes `[0, 1, 2, 3]` with two requests — although delivering
S1 while S2 is on top violates the stack discipline the claim (and spec
§4.3/§9) requires. -/
theorem C1_lifo_dimension_accepts_non_lifo_route :
    lifoConstraintsOk 10 2 [[0, 1, 2, 3]] = true ∧
    lifoStackDiscipline 2 [0, 1, 2, 3] = false := by decide

/-! ## Claim C2 -/

/-- C2 counterexample: with a solver that finds no assignment, `optimize`
on a one-shipment batch raises — the caller observes the `AttributeError`
from the `finally` block's `memory_monitor.stop()` — so it neither returns
a Solution with that shipment unassigned nor avoids the exception the claim
rules out. -/
theorem C2_counterexample :
    optimize defaultSettings (fun _ => none) [exShipment] =
      .error (.attributeError
        ("'MonitoringSystem' object has no attribute 'stop'")) := rfl

/-- C2 amended: `optimize` never returns a Solution at all — every call
raises (the `try` body already fails at `memory_monitor.start()`, and the
caller observes the `finally` block's `AttributeError`) — and the solver
branch that would handle "no assignment found", were it reached, returns
`None` (lines 77–79), not a Solution with all shipments unassigned. -/
theorem C2_no_feasible_assignment_behavior :
    (∀ (settings : Settings) (solve : DataModel → Option Assignment)
        (shipments : List Shipment), ∃ e,
          optimize settings solve shipments = .error e) ∧
    (∀ data : DataModel, solveBranch (fun _ => none) data = .ok none) := by
  constructor
  · intro settings solve shipments
    exact ⟨.attributeError ("'MonitoringSystem' object has no attribute 'stop'"),
      rfl⟩
  · intro data
    rfl

/-! ## Claim C3 -/

/-- C3: the claim (with the spec, §4.4/§7/§8 scenario D) wants the caller
of an over-limit batch to observe `ResourceExhaustedError` before any data
model is built.  The code is wrong in two compounding ways: the `try` body
fails at its very first statement, `memory_monitor.start()`, so even with
1001 shipments the `MAX_SHIPMENTS` guard is never reached and
`ResourceExhaustedError` is never raised (first conjunct); the handler
wraps that `AttributeError` in `OptimizationError` (second conjunct); and
the `finally` block's `memory_monitor.stop()` raises the `AttributeError`
the caller actually observes (third conjunct). -/
theorem C3_resource_error_never_raised :
    optimizeTryBody defaultSettings (fun _ => none) overLimitShipments =
      .error (.attributeError
        ("'MonitoringSystem' object has no attribute 'start'")) ∧
    optimizeHandled defaultSettings (fun _ => none) overLimitShipments =
      .error (.optimizationError
        ("'MonitoringSystem' object has no attribute 'start'")) ∧
    optimize defaultSettings (fun _ => none) overLimitShipments =
      .error (.attributeError
        ("'MonitoringSystem' object has no attribute 'stop'")) :=
  ⟨rfl, rfl, rfl⟩

/-! ## Claim C6 -/

/-- C6 counterexample: a solution whose single route picks up and delivers
26 pallets on a capacity-20 vehicle passes `validate_solution` with
`(True, None)` even though the capacity invariant fails — so the function
does not re-check the capacity invariant as the claim states. -/
theorem C6_counterexample :
    validate_solution lifoConfig.enabled exOverloadSolution = (true, none) ∧
    capacityInvariantHolds 20 exOverloadSolution = false := by decide

/-- C6 amended: `validate_solution` returns `(True, None)` exactly when
every route passes the LIFO stack simulation (with the LIFO config enabled;
with it disabled it always returns `(True, None)`); capacity and time
windows are never checked. -/
theorem C6_validate_solution_checks_only_lifo (sol : List (List VStop)) :
    (validate_solution true sol = (true, none) ↔
      ∀ r ∈ sol, lifoRouteCheck r = true) ∧
    validate_solution false sol = (true, none) := by
  constructor
  · simpa [validate_solution] using validateRoutes_eq_ok sol
  · rfl

/-! ## Claim C7 -/

/-- C7 counterexample: `pallet_count = 21` lies in 1..26  — the pydantic
validator accepts it — yet `validate_data`, which checks against
`MAX_PALLETS = 20`, reports an error for it, contradicting the claim that
validation succeeds for every integer in 1..26. -/
theorem C7_counterexample :
    validate_pallet_count 21 = true ∧
    validateDataPalletOk defaultSettings 21 = false := by decide

/-- C7 amended: `ShipmentData.validate_pallet_count` accepts exactly
1..26, while the pallet check of `DataService.validate_data` accepts
exactly `1..MAX_PALLETS`, i.e. 1..20 with the default settings — so pallet
counts 21..26 pass the pydantic validator but are reported as errors by
`validate_data`. -/
theorem C7_pallet_validation_bounds (v : Int) :
    (validate_pallet_count v = true ↔ 1 ≤ v ∧ v ≤ 26) ∧
    (validateDataPalletOk defaultSettings v = true ↔ 1 ≤ v ∧ v ≤ 20) := by
  constructor
  · simp only [validate_pallet_count, decide_eq_true_eq]
    omega
  · simp only [validateDataPalletOk, defaultSettings, decide_eq_true_eq]
    constructor
    · intro h
      exact ⟨by omega, by exact_mod_cast h.2⟩
    · intro h
      exact ⟨by omega, by exact_mod_cast h.2⟩

/-! ## Claim C9 -/

/-- C9 counterexample: on an in-limit batch (the empty list) `optimize`
raises the `finally` block's `AttributeError`, not an `OptimizationError`
for any message — so the claim's mechanism (the `NoneType` subscript in
`_create_data_model`'s output, wrapped by the blanket handler) is never
what the caller observes. -/
theorem C9_counterexample :
    optimize defaultSettings (fun _ => none) [] =
      .error (.attributeError
        ("'MonitoringSystem' object has no attribute 'stop'")) ∧
    ∀ msg, optimize defaultSettings (fun _ => none) [] ≠
      .error (.optimizationError msg) := by
  refine ⟨rfl, ?_⟩
  intro msg h
  have h2 : (Except.error (PyExc.attributeError
        ("'MonitoringSystem' object has no attribute 'stop'"))
      : Except PyExc (Option Solution))
      = Except.error (PyExc.optimizationError msg) := by
    rw [← h]
    rfl
  simp at h2

/-- C9 amended: for every batch — within the limit or not — `optimize`
raises `AttributeError`: `memory_monitor.start()` fails before anything
else (so `_create_data_model` and the `data["distance_matrix"]` subscript
are never reached), the blanket handler wraps that in `OptimizationError`,
and the `finally` block's `memory_monitor.stop()` raises the
`AttributeError` that replaces it and reaches the caller. -/
theorem C9_always_attribute_error (settings : Settings)
    (solve : DataModel → Option Assignment) (shipments : List Shipment) :
    optimizeTryBody settings solve shipments =
      .error (.attributeError
        ("'MonitoringSystem' object has no attribute 'start'")) ∧
    optimizeHandled settings solve shipments =
      .error (.optimizationError
        ("'MonitoringSystem' object has no attribute 'start'")) ∧
    optimize settings solve shipments =
      .error (.attributeError
        ("'MonitoringSystem' object has no attribute 'stop'")) :=
  ⟨rfl, rfl, rfl⟩

/-! ## Claim C10 -/

/-- C10: `validate_solution` accepts routes with undelivered pickups — if
every route passes the per-delivery stack check, the result is
`(True, None)` even when some route's final stack is non-empty. -/
theorem C10_accepts_undelivered_pickups (sol : List (List VStop))
    (h1 : ∀ r ∈ sol, lifoRouteCheck r = true)
    (_h2 : ∃ r ∈ sol, hasLeftoverPickups r = true) :
    validate_solution true sol = (true, none) := by
  have h := (validateRoutes_eq_ok sol).mpr h1
  simpa [validate_solution] using h

/-- C10 witness: a route consisting of a single pickup has a non-empty
final stack and is accepted. -/
theorem C10_witness :
    (∀ r ∈ exLeftoverSolution, lifoRouteCheck r = true) ∧
    (∃ r ∈ exLeftoverSolution, hasLeftoverPickups r = true) ∧
    validate_solution true exLeftoverSolution = (true, none) :=
  ⟨by decide, by decide,
   C10_accepts_undelivered_pickups exLeftoverSolution (by decide) (by decide)⟩

/-! ## Claim C8 -/

theorem decodeTimeField_roundtrip (t : Option PyDateTime) :
    decodeTimeField (t.map PyDateTime.isoformat) = some t := by
  cases t with
  | none => rfl
  | some d => cases d; rfl

theorem shipment_from_dict_to_dict (s : Shipment) :
    Shipment.from_dict s.to_dict = some s := by
  simp [Shipment.from_dict, Shipment.to_dict, decodeTimeField_roundtrip,
    Location.from_dict, Location.to_dict]

theorem decodeStops_roundtrip (l : List (String × Shipment)) :
    decodeStops (l.map (fun p => (p.1, p.2.to_dict))) = some l := by
  induction l with
  | nil => rfl
  | cons p rest ih =>
      simp [decodeStops, shipment_from_dict_to_dict, ih]

theorem route_from_dict_to_dict (r : Route) :
    Route.from_dict_model r.to_dict = some r := by
  simp [Route.from_dict_model, Route.to_dict, decodeStops_roundtrip]

theorem decodeRoutes_roundtrip (l : List Route) :
    decodeRoutes (l.map Route.to_dict) = some l := by
  induction l with
  | nil => rfl
  | cons r rest ih =>
      simp [decodeRoutes, route_from_dict_to_dict, ih]

theorem decodeShipments_roundtrip (l : List Shipment) :
    decodeShipments (l.map Shipment.to_dict) = some l := by
  induction l with
  | nil => rfl
  | cons s rest ih =>
      simp [decodeShipments, shipment_from_dict_to_dict, ih]

/-- C8: serializing a `Solution` with `to_dict` and deserializing the
result reproduces the solution exactly — same routes with the same stop
sequences, same `total_distance` and `total_cost`, and the same
`unassigned_shipments` list. -/
theorem C8_solution_serialization_roundtrip (s : Solution) :
    Solution.from_dict_model s.to_dict = some s := by
  simp [Solution.from_dict_model, Solution.to_dict, decodeRoutes_roundtrip,
    decodeShipments_roundtrip]

/-! ## Claim C4 -/

theorem getD_build_demands (shipments : List Shipment) :
    ∀ n, n < 2 * shipments.length →
      (build_demands shipments).getD n 0 = signedDemand shipments n := by
  induction shipments with
  | nil =>
      intro n h
      simp at h
  | cons s rest ih =>
      intro n h
      match n with
      | 0 => simp [build_demands, signedDemand]
      | 1 => simp [build_demands, signedDemand]
      | n + 2 =>
          have h' : n < 2 * rest.length := by
            simp only [List.length_cons] at h
            omega
          have e1 : (n + 2) / 2 = n / 2 + 1 := by omega
          have e2 : (n + 2) % 2 = n % 2 := by omega
          have goal' := ih n h'
          simp only [build_demands, List.map_cons, List.flatten_cons,
            List.cons_append, List.nil_append, List.getD_cons_succ,
            signedDemand, e1, e2, List.getElem?_cons_succ] at goal' ⊢
          exact goal'

theorem cumuls_bound (demands : List Int) (cap : Int) :
    ∀ (route : List Nat) (c : Int),
      (routeCumuls demands c route).all
        (fun x => decide (0 ≤ x) && decide (x ≤ cap)) = true →
      ∀ k, k ≤ route.length →
        0 ≤ c + ((route.take k).map (fun n => demands.getD n 0)).sum ∧
        c + ((route.take k).map (fun n => demands.getD n 0)).sum ≤ cap := by
  intro route
  induction route with
  | nil =>
      intro c h k hk
      simp only [List.length_nil, Nat.le_zero] at hk
      subst hk
      simp only [routeCumuls, List.all_cons, List.all_nil, Bool.and_true,
        Bool.and_eq_true, decide_eq_true_eq] at h
      simpa using h
  | cons n rest ih =>
      intro c h k hk
      simp only [routeCumuls, List.all_cons, Bool.and_eq_true,
        decide_eq_true_eq] at h
      obtain ⟨hc, hrest⟩ := h
      match k with
      | 0 => simpa using hc
      | k + 1 =>
          have hk' : k ≤ rest.length := by
            simp only [List.length_cons] at hk
            omega
          have step := ih (c + demands.getD n 0)
            (by simpa [Bool.and_eq_true, decide_eq_true_eq] using hrest) k hk'
          simp only [List.take_succ_cons, List.map_cons, List.sum_cons]
          constructor
          · have := step.1
            linarith
          · have := step.2
            linarith

/-- C4: a route that is feasible for the capacity dimension exactly as the
code encodes it — demands callback `data["demands"][node]`, zero slack,
start cumul zero, every cumul within `[0, cap]` — has every prefix of its
signed pallet running sum (pickup adds `pallet_count`, delivery subtracts
it) within `[0, cap]`.  Every route of a solver-returned Solution satisfies
the dimension, so the claim's invariant holds of all returned routes.
The demand vector is the spec-modelled `build_demands` (the builder in the
source is a stub). -/
theorem C4_capacity_prefix_invariant (shipments : List Shipment) (cap : Int)
    (route : List Nat)
    (hvalid : ∀ n ∈ route, n < 2 * shipments.length)
    (hfeas : capacityDimensionOk (build_demands shipments) cap route = true) :
    ∀ k, k ≤ route.length →
      0 ≤ prefixPalletSum shipments route k ∧
      prefixPalletSum shipments route k ≤ cap := by
  intro k hk
  have h := cumuls_bound (build_demands shipments) cap route 0 hfeas k hk
  have hmap : (route.take k).map (fun n => (build_demands shipments).getD n 0)
      = (route.take k).map (signedDemand shipments) := by
    apply List.map_congr_left
    intro n hn
    exact getD_build_demands shipments n (hvalid n (List.mem_of_mem_take hn))
  rw [hmap] at h
  simpa [prefixPalletSum] using h

/-- C4 witness: the one-shipment route pickup-then-delivery with 5 pallets
on a capacity-20 vehicle. -/
theorem C4_witness :
    (∀ n ∈ [0, 1], n < 2 * [exShipment].length) ∧
    capacityDimensionOk (build_demands [exShipment]) 20 [0, 1] = true ∧
    ∀ k, k ≤ [0, 1].length →
      0 ≤ prefixPalletSum [exShipment] [0, 1] k ∧
      prefixPalletSum [exShipment] [0, 1] k ≤ 20 :=
  ⟨by decide, by decide,
   C4_capacity_prefix_invariant [exShipment] 20 [0, 1] (by decide) (by decide)⟩

/-! ## Claim C5 -/

theorem id_index_iff (shipments : List Shipment) (k : Nat) (s : Shipment)
    (hk : shipments[k]? = some s)
    (hids : (shipments.map Shipment.id).Nodup) :
    ∀ j t, shipments[j]? = some t → (t.id = s.id ↔ j = k) := by
  intro j t ht
  constructor
  · intro h
    have hj : j < shipments.length := by
      by_contra hge
      rw [List.getElem?_eq_none (by omega)] at ht
      exact absurd ht (by simp)
    have h1 : (shipments.map Shipment.id)[j]? = some s.id := by
      rw [List.getElem?_map, ht]
      simp [h]
    have h2 : (shipments.map Shipment.id)[k]? = some s.id := by
      rw [List.getElem?_map, hk]
      rfl
    exact List.getElem?_inj (by simpa using hj) hids (h1.trans h2.symm)
  · intro h
    subst h
    rw [hk] at ht
    injection ht with h'
    exact (congrArg Shipment.id h').symm

theorem hasStop_eq_contains (shipments : List Shipment) (k : Nat) (s : Shipment)
    (hk : shipments[k]? = some s)
    (hids : (shipments.map Shipment.id).Nodup) :
    ∀ r : List Nat, (∀ n ∈ r, n < 2 * shipments.length) →
      ((r.filterMap (node_stop shipments)).any
          (fun st => st.1 == ("pickup") && st.2.id == s.id) = r.contains (2 * k)) ∧
      ((r.filterMap (node_stop shipments)).any
          (fun st => st.1 == ("delivery") && st.2.id == s.id) = r.contains (2 * k + 1)) := by
  intro r
  induction r with
  | nil => intro _; exact ⟨rfl, rfl⟩
  | cons n r' ih =>
      intro hr
      have hn : n < 2 * shipments.length := hr n (List.mem_cons_self n r')
      have hhalf : n / 2 < shipments.length := by omega
      obtain ⟨u, hu⟩ : ∃ u, shipments[(n / 2)]? = some u := by
        cases hget : shipments[(n / 2)]? with
        | none =>
            rw [List.getElem?_eq_none_iff] at hget
            omega
        | some u => exact ⟨u, rfl⟩
      have hstep := ih (fun m hm => hr m (List.mem_cons_of_mem n hm))
      have hidx := id_index_iff shipments k s hk hids (n / 2) u hu
      have hnode : node_stop shipments n =
          some ((if n % 2 = 0 then ("pickup") else ("delivery")), u) := by
        simp [node_stop, hu]
      constructor
      · have hhead : ((if n % 2 = 0 then ("pickup") else ("delivery")) == ("pickup")
              && (u.id == s.id)) = (n == 2 * k) := by
          rw [Bool.eq_iff_iff]
          by_cases he : n % 2 = 0
          · simp only [he, if_pos rfl, Bool.and_eq_true, beq_iff_eq]
            rw [hidx]
            constructor
            · rintro ⟨-, hh⟩
              omega
            · intro hh
              exact ⟨rfl, by omega⟩
          · simp only [he, if_neg he, Bool.and_eq_true, beq_iff_eq]
            constructor
            · rintro ⟨habs, -⟩
              exact absurd habs (by decide)
            · intro hh
              omega
        simp only [List.filterMap_cons, hnode, List.any_cons, hhead, hstep.1,
          List.contains_cons]
        rw [Bool.eq_iff_iff]
        simp only [Bool.or_eq_true, beq_iff_eq]
        constructor
        · rintro (hh | hh)
          · exact Or.inl (by omega)
          · exact Or.inr hh
        · rintro (hh | hh)
          · exact Or.inl (by omega)
          · exact Or.inr hh
      · have hhead : ((if n % 2 = 0 then ("pickup") else ("delivery")) == ("delivery")
              && (u.id == s.id)) = (n == 2 * k + 1) := by
          rw [Bool.eq_iff_iff]
          by_cases he : n % 2 = 0
          · simp only [he, if_pos rfl, Bool.and_eq_true, beq_iff_eq]
            constructor
            · rintro ⟨habs, -⟩
              exact absurd habs (by decide)
            · intro hh
              omega
          · simp only [he, if_neg he, Bool.and_eq_true, beq_iff_eq]
            rw [hidx]
            constructor
            · rintro ⟨-, hh⟩
              omega
            · intro hh
              exact ⟨rfl, by omega⟩
        simp only [List.filterMap_cons, hnode, List.any_cons, hhead, hstep.2,
          List.contains_cons]
        rw [Bool.eq_iff_iff]
        simp only [Bool.or_eq_true, beq_iff_eq]
        constructor
        · rintro (hh | hh)
          · exact Or.inl (by omega)
          · exact Or.inr hh
        · rintro (hh | hh)
          · exact Or.inl (by omega)
          · exact Or.inr hh

theorem countP_buildRoutes (shipments : List Shipment)
    (routeDistance : List Nat → Int) (p : Route → Bool) (q : List Nat → Bool)
    (A : List (List Nat))
    (hpq : ∀ i r, r ∈ A → p (buildRoute shipments routeDistance i r) = q r) :
    ∀ i0, (buildRoutes shipments routeDistance i0 A).countP p = A.countP q := by
  induction A with
  | nil => intro i0; rfl
  | cons r rest ih =>
      intro i0
      have hhead := hpq i0 r (List.mem_cons_self r rest)
      have htail := ih (fun i r' hr' => hpq i r' (List.mem_cons_of_mem r hr')) (i0 + 1)
      simp only [buildRoutes, List.countP_cons, htail, hhead]

theorem any_unassigned_eq (shipments : List Shipment) (k : Nat) (s : Shipment)
    (hk : shipments[k]? = some s)
    (hids : (shipments.map Shipment.id).Nodup)
    (P : Nat → Bool) :
    ∀ l : List Nat, (∀ j ∈ l, j < shipments.length) →
      ((l.filter P).filterMap (fun j => shipments[j]?)).any
          (fun u => u.id == s.id)
        = l.any (fun j => P j && j == k) := by
  intro l
  induction l with
  | nil => intro _; rfl
  | cons j l' ih =>
      intro hl
      have hj : j < shipments.length := hl j (List.mem_cons_self j l')
      obtain ⟨u, hu⟩ : ∃ u, shipments[j]? = some u := by
        cases hget : shipments[j]? with
        | none =>
            rw [List.getElem?_eq_none_iff] at hget
            omega
        | some u => exact ⟨u, rfl⟩
      have htail := ih (fun x hx => hl x (List.mem_cons_of_mem j hx))
      have hhead : (u.id == s.id) = (j == k) := by
        rw [Bool.eq_iff_iff]
        simp only [beq_iff_eq]
        exact id_index_iff shipments k s hk hids j u hu
      by_cases hP : P j
      · rw [List.filter_cons, if_pos (by simp [hP])]
        simp only [List.filterMap_cons, hu, List.any_cons, htail, hhead, hP,
          Bool.true_and]
      · have hPf : P j = false := by
          revert hP
          cases P j <;> simp
        rw [List.filter_cons, if_neg (by simp [hPf])]
        rw [htail, List.any_cons, hPf]
        simp

theorem any_range_at (len k : Nat) (hk : k < len) (P : Nat → Bool) :
    (List.range len).any (fun j => P j && j == k) = P k := by
  rw [Bool.eq_iff_iff]
  simp only [List.any_eq_true, List.mem_range, Bool.and_eq_true, beq_iff_eq]
  constructor
  · rintro ⟨j, -, hP, rfl⟩
    exact hP
  · intro h
    exact ⟨k, hk, h, rfl⟩

/-- C5: for the spec-modelled extractor (`_create_solution` is a stub) and a
raw assignment obeying the solver's pair contract — each shipment's pickup
and delivery node both visited exactly once on a single shared route, or
neither visited — every input shipment is either placed with both its stops
in exactly one route, or reported unassigned with neither stop in any
route, and never both. -/
theorem C5_completeness_invariant (shipments : List Shipment)
    (routeDistance : List Nat → Int) (costPerMile : Int)
    (A : List (List Nat)) (k : Nat) (s : Shipment)
    (hk : shipments[k]? = some s)
    (hids : (shipments.map Shipment.id).Nodup)
    (hvalid : ∀ r ∈ A, ∀ n ∈ r, n < 2 * shipments.length)
    (hpair : (A.countP (fun r => r.contains (2 * k) && r.contains (2 * k + 1)) = 1 ∧
              A.countP (fun r => r.contains (2 * k) || r.contains (2 * k + 1)) = 1) ∨
             (∀ r ∈ A, r.contains (2 * k) = false ∧ r.contains (2 * k + 1) = false)) :
    Xor'
      (placedInExactlyOneRoute
        (create_solution_model shipments routeDistance costPerMile A) s.id)
      (unassignedWithNoStops
        (create_solution_model shipments routeDistance costPerMile A) s.id) := by
  have hklen : k < shipments.length := by
    by_contra hge
    rw [List.getElem?_eq_none (by omega)] at hk
    exact absurd hk (by simp)
  have hstop : ∀ r ∈ A,
      ((r.filterMap (node_stop shipments)).any
          (fun st => st.1 == ("pickup") && st.2.id == s.id) = r.contains (2 * k)) ∧
      ((r.filterMap (node_stop shipments)).any
          (fun st => st.1 == ("delivery") && st.2.id == s.id) = r.contains (2 * k + 1)) :=
    fun r hr => hasStop_eq_contains shipments k s hk hids r (hvalid r hr)
  have hcountBoth :
      (buildRoutes shipments routeDistance 0 A).countP
          (fun r => r.hasStopId ("pickup") s.id && r.hasStopId ("delivery") s.id)
        = A.countP (fun r => r.contains (2 * k) && r.contains (2 * k + 1)) := by
    apply countP_buildRoutes
    intro i r hr
    have h := hstop r hr
    simp only [buildRoute, Route.hasStopId, h.1, h.2]
  have hcountEither :
      (buildRoutes shipments routeDistance 0 A).countP
          (fun r => r.hasStopId ("pickup") s.id || r.hasStopId ("delivery") s.id)
        = A.countP (fun r => r.contains (2 * k) || r.contains (2 * k + 1)) := by
    apply countP_buildRoutes
    intro i r hr
    have h := hstop r hr
    simp only [buildRoute, Route.hasStopId, h.1, h.2]
  have hunassigned :
      ((((List.range shipments.length).filter
          (fun j => !appearsIn A (2 * j) && !appearsIn A (2 * j + 1))).filterMap
            (fun j => shipments[j]?)).any (fun u => u.id == s.id))
        = (!appearsIn A (2 * k) && !appearsIn A (2 * k + 1)) := by
    rw [any_unassigned_eq shipments k s hk hids _ (List.range shipments.length)
      (fun j hj => List.mem_range.mp hj)]
    exact any_range_at shipments.length k hklen _
  rcases hpair with ⟨h1, h2⟩ | hnone
  · left
    constructor
    · exact ⟨by
        simp only [placedInExactlyOneRoute, create_solution_model]
        rw [hcountBoth]
        exact h1,
        by
        simp only [placedInExactlyOneRoute, create_solution_model]
        rw [hcountEither]
        exact h2⟩
    · intro hB
      have hBany := hB.1
      obtain ⟨r0, hr0, hboth⟩ := List.countP_pos_iff.mp (by omega : 0 <
        A.countP (fun r => r.contains (2 * k) && r.contains (2 * k + 1)))
      have happ : appearsIn A (2 * k) = true := by
        simp only [appearsIn, List.any_eq_true]
        exact ⟨r0, hr0, by
          have := (Bool.and_eq_true _ _).mp hboth
          exact this.1⟩
      simp only [unassignedWithNoStops, create_solution_model] at hBany
      rw [hunassigned, happ] at hBany
      simp at hBany
  · right
    have hzeroEither :
        A.countP (fun r => r.contains (2 * k) || r.contains (2 * k + 1)) = 0 := by
      apply List.countP_eq_zero.mpr
      intro r hr
      simp only [(hnone r hr).1, (hnone r hr).2, Bool.or_false, Bool.false_eq_true,
        not_false_eq_true]
    have hzeroBoth :
        A.countP (fun r => r.contains (2 * k) && r.contains (2 * k + 1)) = 0 := by
      apply List.countP_eq_zero.mpr
      intro r hr
      simp only [(hnone r hr).1, (hnone r hr).2, Bool.and_false, Bool.false_eq_true,
        not_false_eq_true]
    have happ1 : appearsIn A (2 * k) = false := by
      simp only [appearsIn, List.any_eq_false]
      intro r hr
      simpa using (hnone r hr).1
    have happ2 : appearsIn A (2 * k + 1) = false := by
      simp only [appearsIn, List.any_eq_false]
      intro r hr
      simpa using (hnone r hr).2
    constructor
    · constructor
      · simp only [unassignedWithNoStops, create_solution_model]
        rw [hunassigned, happ1, happ2]
        rfl
      · simp only [unassignedWithNoStops, create_solution_model]
        rw [hcountEither]
        exact hzeroEither
    · intro hA
      have := hA.1
      simp only [placedInExactlyOneRoute, create_solution_model] at this
      rw [hcountBoth, hzeroBoth] at this
      exact absurd this (by omega)

/-- C5 witness: one shipment, one vehicle visiting its pickup node 0 then
its delivery node 1. -/
theorem C5_witness :
    ([exShipment])[0]? = some exShipment ∧
    ([exShipment].map Shipment.id).Nodup ∧
    (∀ r ∈ [[0, 1]], ∀ n ∈ r, n < 2 * [exShipment].length) ∧
    ([[0, 1]].countP (fun r => r.contains (2 * 0) && r.contains (2 * 0 + 1)) = 1 ∧
     [[0, 1]].countP (fun r => r.contains (2 * 0) || r.contains (2 * 0 + 1)) = 1) ∧
    Xor'
      (placedInExactlyOneRoute
        (create_solution_model [exShipment] (fun _ => 0) 2 [[0, 1]]) exShipment.id)
      (unassignedWithNoStops
        (create_solution_model [exShipment] (fun _ => 0) 2 [[0, 1]]) exShipment.id) :=
  ⟨rfl, by decide, by decide, ⟨by decide, by decide⟩,
   C5_completeness_invariant [exShipment] (fun _ => 0) 2 [[0, 1]] 0 exShipment
     rfl (by decide) (by decide) (Or.inl ⟨by decide, by decide⟩)⟩

end VRPOptimizer
